import Mathlib

/-!
Verification of the workflow template resolution and job lifecycle
orchestration subsystem of the comfy-mcp-server repository.

The Python source is shallowly embedded:

* JSON values are modelled by the inductive `JVal`; Python dictionaries by
  association lists with Python `dict` semantics (assignment to an existing
  key replaces the value in place, otherwise appends; lookup finds the
  first binding).
* The graph-form workflow document (`nodes` array + `links` list) is the
  structure `GraphWF`; the flat/API form is `FlatWF`.  A loaded workflow
  JSON document is the tagged union `WorkflowDocument` (graph form iff the
  dict has a `nodes` key).
* Machine-level effects are abstracted as data: `datetime.now().strftime`
  becomes an opaque rendering function `render : String → String`, the
  filesystem becomes the explicit structure `FS`, and each HTTP response
  the backend produces is supplied as data.  Python exceptions are
  modelled with `Except PyExn`.
-/

/-- A JSON-like Python value as it occurs in workflow documents. -/
inductive JVal where
  | vnull
  | vbool (b : Bool)
  | vint (n : Int)
  | vstr (s : String)
  | vlist (xs : List JVal)

mutual

/-- Python `repr` for the values of `JVal` (strings are quoted; this models
`repr` faithfully for strings without escape-worthy characters, which is the
only case the workflow data exercises). -/
def pyRepr : JVal → String
  | .vnull => "None"
  | .vbool b => if b then "True" else "False"
  | .vint n => toString n
  | .vstr s => "'" ++ s ++ "'"
  | .vlist xs => "[" ++ pyReprList xs ++ "]"

/-- Comma-separated `repr` of the elements of a Python list. -/
def pyReprList : List JVal → String
  | [] => ""
  | [x] => pyRepr x
  | x :: xs => pyRepr x ++ ", " ++ pyReprList xs
end

/-- Python `str` applied to a `JVal` (differs from `repr` only on strings). -/
def pyStr : JVal → String
  | .vstr s => s
  | v => pyRepr v

/-- ASCII `str.lower`, character by character. -/
def pyLower (s : String) : String := String.mk (s.data.map Char.toLower)

/-- Python `s.startswith(pre)`. -/
def pyStartsWith (s pre : String) : Bool := List.isPrefixOf pre.data s.data

/-- Python `s.endswith(suffix)`. -/
def pyEndsWith (s suffix : String) : Bool := List.isSuffixOf suffix.data s.data

/-- The worker of `pySplitSlash`: split off the accumulated (reversed)
current chunk at every separator. -/
def splitCharAux (sep : Char) : List Char → List Char → List (List Char)
  | [], cur => [cur.reverse]
  | c :: rest, cur =>
      if c = sep then cur.reverse :: splitCharAux sep rest []
      else splitCharAux sep rest (c :: cur)

/-- Python `s.split("/")`. -/
def pySplitSlash (s : String) : List String :=
  (splitCharAux '/' s.data []).map String.mk

/-- Python `sub in s` substring containment on strings. -/
def pyIn (needle haystack : String) : Bool :=
  decide (needle.data <:+: haystack.data)

/-- Python dict assignment `m[k] = v` on an association list: replace the
value of the first binding of `k` in place, else append a new binding. -/
def dictInsert {α : Type} : List (String × α) → String → α → List (String × α)
  | [], k, v => [(k, v)]
  | (k', v') :: rest, k, v =>
      if k' = k then (k', v) :: rest else (k', v') :: dictInsert rest k v

/-- Python dict lookup `m.get(k)` on an association list. -/
def dictLookup {α : Type} : List (String × α) → String → Option α
  | [], _ => none
  | (k', v') :: rest, k => if k' = k then some v' else dictLookup rest k

/-- Python `os.path.join` for the POSIX cases used by the source: an
absolute second component discards the first, otherwise the components are
joined with a single separator. -/
def pyJoin (a b : String) : String :=
  if pyStartsWith b "/" then b
  else if a = "" then b
  else if pyEndsWith a "/" then a ++ b
  else a ++ "/" ++ b

/-- Python `str` of an `Optional[str]` (an f-string renders `None`). -/
def optStr : Option String → String
  | some s => s
  | none => "None"

/-- The extension part of `os.path.splitext`: the part of the basename from
its last dot, where the run of leading dots of the basename never starts an
extension. -/
def splitextExt (p : String) : String :=
  let base := (pySplitSlash p).getLastD p
  let cs := base.data
  let lead := cs.takeWhile (fun c => c = '.')
  let rest := cs.drop lead.length
  let revRest := rest.reverse
  let afterDot := revRest.takeWhile (fun c => c ≠ '.')
  if afterDot.length = revRest.length then ""
  else String.mk ('.' :: afterDot.reverse)

/-- One entry of a graph-form node's `inputs` array.  `widget` records the
presence of the `"widget"` key (the source tests key presence, not its
value); `link` is the value of the `"link"` key with both a missing key and
JSON `null` mapped to `none`. -/
structure GInput where
  name : String
  widget : Bool
  link : Option Int

/-- One record of the graph-form `links` list `[id, source-node-id,
source-output-index, ...]`; only the first three positions are read by the
source. -/
structure Link where
  lid : Int
  source : Int
  source_idx : Int
deriving DecidableEq

/-- A graph-form node record.  `widgets_values` is `none` when the node has
no `widgets_values` key. -/
structure GNode where
  id : Int
  title : Option String
  ntype : String
  inputs : List GInput
  widgets_values : Option (List JVal)

/-- A graph-form workflow document: `nodes` array plus `links` list
(`workflow_data.get("links", [])`). -/
structure GraphWF where
  nodes : List GNode
  links : List Link

/-- A flat/API-form node: `{"class_type": ..., "inputs": {...}}`. -/
structure FlatNode where
  class_type : String
  inputs : List (String × JVal)

/-- A flat/API-form workflow: a dict from node-id strings to flat nodes. -/
def FlatWF := List (String × FlatNode)

/-- A loaded workflow document: graph form iff the JSON dict has a `nodes`
key, flat/API form otherwise. -/
inductive WorkflowDocument where
  | graph (g : GraphWF)
  | flat (w : FlatWF)

/-- The node reference `[str(link[1]), link[2]]` stored for a linked input. -/
def linkRef (l : Link) : JVal :=
  .vlist [.vstr (toString l.source), .vint l.source_idx]

/-- The loop body of `workflow_to_api_format` over one node's `inputs`
array: `widx` is the per-node widget-value consumption cursor, `acc` the
inputs dict built so far.  A widget-flagged input consumes the next widget
value only while the cursor is in range; otherwise a non-widget input with a
non-null link id is resolved against the first matching link record. -/
def applyInputs (links : List Link) (wv : List JVal) :
    List GInput → Nat → List (String × JVal) → List (String × JVal)
  | [], _, acc => acc
  | inp :: rest, widx, acc =>
    if inp.widget then
      match wv.get? widx with
      | some v => applyInputs links wv rest (widx + 1) (dictInsert acc inp.name v)
      | none => applyInputs links wv rest widx acc
    else
      match inp.link with
      | some lid =>
        match links.find? (fun l => l.lid == lid) with
        | some l => applyInputs links wv rest widx (dictInsert acc inp.name (linkRef l))
        | none => applyInputs links wv rest widx acc
      | none => applyInputs links wv rest widx acc

/-- The flat record `workflow_to_api_format` builds for one graph node:
`{"class_type": node["type"], "inputs": ...}` where the inputs dict is
populated only when the node has a `widgets_values` key. -/
def nodeToFlat (links : List Link) (node : GNode) : FlatNode :=
  { class_type := node.ntype,
    inputs :=
      match node.widgets_values with
      | some wv => applyInputs links wv node.inputs 0 []
      | none => [] }

/-- `workflow_to_api_format`: passthrough for a document without a `nodes`
key, otherwise build the flat dict keyed by `str(node["id"])` in document
order. -/
def workflow_to_api_format : WorkflowDocument → WorkflowDocument
  | .flat w => .flat w
  | .graph g =>
      .flat (g.nodes.foldl
        (fun acc node => dictInsert acc (toString node.id) (nodeToFlat g.links node)) [])

/-- The `nodes` array `workflow_data.get("nodes", [])` of a document. -/
def nodesOf : WorkflowDocument → List GNode
  | .graph g => g.nodes
  | .flat _ => []

/-- The first-pass predicate of `auto_discover_node_id`: the case-folded
title is truthy and contains some keyword (case-folded), and the class type
matches when one is required. -/
def pass1Matches (title_keywords : List String) (class_type : Option String)
    (node : GNode) : Bool :=
  let title := pyLower (node.title.getD "")
  (title != "" && title_keywords.any (fun keyword => pyIn (pyLower keyword) title)) &&
    (match class_type with
     | none => true
     | some ct => node.ntype == ct)

/-- `auto_discover_node_id`: first pass scans nodes in document order for a
title-keyword and class-type match; the second pass (only when a truthy
class type was given) returns the first node of the required type. -/
def auto_discover_node_id (workflow_data : Option WorkflowDocument)
    (title_keywords : List String) (class_type : Option String) : Option String :=
  match workflow_data with
  | none => none
  | some wd =>
    let nodes := nodesOf wd
    match nodes.find? (pass1Matches title_keywords class_type) with
    | some node => some (toString node.id)
    | none =>
      match class_type with
      | some ct =>
          if ct = "" then none
          else (nodes.find? (fun node => node.ntype == ct)).map
            (fun node => toString node.id)
      | none => none

/-- The fixed slot-name list of the `Text String` pass-through node. -/
def textSlots : List String := ["text", "text_b", "text_c", "text_d"]

/-- A `JVal` viewed as a Python `int` where Python would accept one in
comparisons and list indexing (`bool` is an `int` subclass). -/
def asPyInt : JVal → Option Int
  | .vint n => some n
  | .vbool b => some (if b then 1 else 0)
  | _ => none

/-- Python list indexing `xs[i]` with negative-index wrap-around; `none`
models an `IndexError`. -/
def pyListGetStr (xs : List String) (i : Int) : Option String :=
  if 0 ≤ i then xs.get? i.toNat
  else if 0 ≤ (xs.length : Int) + i then xs.get? ((xs.length : Int) + i).toNat
  else none

/-- `resolve_node_input`: a two-element list is a node reference resolved
against the flat workflow (only `Text String` sources resolve, via the
fixed slot-name list); `None` resolves to the empty string, any other value
to its `str` form.  The result `none` models a raised `TypeError` or
`IndexError` (non-integer or out-of-range slot index against a
`Text String` source). -/
def resolve_node_input (input_value : JVal) (workflow_template : FlatWF) : Option JVal :=
  match input_value with
  | .vlist [v0, v1] =>
    let source_node_id := pyStr v0
    match dictLookup workflow_template source_node_id with
    | some source_node =>
      if source_node.class_type = "Text String" then
        match asPyInt v1 with
        | some output_idx =>
          if output_idx < (textSlots.length : Int) then
            match pyListGetStr textSlots output_idx with
            | some input_name =>
                some ((dictLookup source_node.inputs input_name).getD (.vstr ""))
            | none => none
          else some (.vstr "")
        | none => none
      else some (.vstr "")
    | none => some (.vstr "")
  | .vnull => some (.vstr "")
  | v => some (.vstr (pyStr v))

/-- Whether a `JVal` has the shape `resolve_node_input` treats as a node
reference (`isinstance(v, list) and len(v) == 2`). -/
def isNodeRef : JVal → Bool
  | .vlist [_, _] => true
  | _ => false

/-- The regex `\[time\(([^)]+)\)\]` attempted at the start of `cs`: a
successful match yields the captured format string and the remainder after
the token.  The capture is the nonempty maximal run of non-`)` characters,
which must be followed by `)]`. -/
def matchTimeToken (cs : List Char) : Option (String × List Char) :=
  if cs.take 6 = ['[', 't', 'i', 'm', 'e', '('] then
    let rest := cs.drop 6
    let cap := rest.takeWhile (fun c => c ≠ ')')
    let rest' := rest.dropWhile (fun c => c ≠ ')')
    if cap = [] then none
    else
      match rest' with
      | ')' :: ']' :: tail => some (String.mk cap, tail)
      | _ => none
  else none

/-- Left-to-right non-overlapping `re.sub` scan: at each position either a
time token matches and is replaced by the rendered current time, or one
character is emitted verbatim. -/
def evalTimeAux (render : String → String) : List Char → List Char
  | [] => []
  | c :: rest =>
    match h : matchTimeToken (c :: rest) with
    | some p => (render p.1).data ++ evalTimeAux render p.2
    | none => c :: evalTimeAux render rest
termination_by cs => cs.length
decreasing_by
  · simp only [matchTimeToken] at h
    split at h
    · rename_i htake
      split at h
      · exact absurd h (by simp)
      · split at h
        · rename_i tail hdrop
          have h1 : (List.dropWhile (fun c => c ≠ ')') ((c :: rest).drop 6)).length ≤
              ((c :: rest).drop 6).length := by
            induction (c :: rest).drop 6 with
            | nil => simp [List.dropWhile]
            | cons a l ih =>
                simp only [List.dropWhile]
                split
                · exact Nat.le_trans ih (by simp)
                · simp
          rw [hdrop] at h1
          cases h
          simp only [List.length_cons, List.length_drop] at h1 ⊢
          omega
        · exact absurd h (by simp)
    · exact absurd h (by simp)
  · simp

/-- `evaluate_time_tokens`: replace every `[time(<format>)]` token in the
path string by the current local time rendered in that format; the
rendering function abstracts `datetime.now().strftime`. -/
def evaluate_time_tokens (render : String → String) (path_str : String) : String :=
  String.mk (evalTimeAux render path_str.data)

/-- Decides whether the scan of `evalTimeAux` would find any time token. -/
def hasTimeTokenAux : List Char → Bool
  | [] => false
  | c :: rest => (matchTimeToken (c :: rest)).isSome || hasTimeTokenAux rest

/-- One image descriptor from a completed job's outputs:
`{filename, subfolder, type}`. -/
structure ImageDesc where
  filename : String
  subfolder : String
  ty : String
deriving DecidableEq

/-- The outputs of one node in a completed job: `{"images": [...]}`. -/
structure NodeOutput where
  images : List ImageDesc
deriving DecidableEq

/-- One entry of the history response, `history_data[prompt_id]`:
`completed` models `entry["status"]["completed"]` and `outputs` the
`entry["outputs"]` dict. -/
structure HistoryEntry where
  completed : Bool
  outputs : List (String × NodeOutput)
deriving DecidableEq

/-- One response of the history endpoint: HTTP status plus the parsed JSON
body, a dict keyed by prompt id. -/
structure PollResponse where
  status : Nat
  history : List (String × HistoryEntry)
deriving DecidableEq

/-- The body of one iteration of the poll loop: the attempt succeeds iff
the response has status 200, carries the prompt id, and its completion flag
is true. -/
def pollHit (responses : Nat → PollResponse) (prompt_id : String) (i : Nat) :
    Option HistoryEntry :=
  let r := responses i
  if r.status = 200 then
    match dictLookup r.history prompt_id with
    | some entry => if entry.completed then some entry else none
    | none => none
  else none

/-- The poll loop from attempt index `i` with `k` attempts remaining. -/
def pollFrom (responses : Nat → PollResponse) (prompt_id : String) :
    Nat → Nat → Option HistoryEntry
  | _, 0 => none
  | i, k + 1 =>
    let r := responses i
    if r.status = 200 then
      match dictLookup r.history prompt_id with
      | some entry =>
          if entry.completed then some entry
          else pollFrom responses prompt_id (i + 1) k
      | none => pollFrom responses prompt_id (i + 1) k
    else pollFrom responses prompt_id (i + 1) k

/-- `poll_for_completion`: query the history endpoint up to `max_attempts`
times (the attempt index selects the response), returning the prompt's full
history entry on the first present-and-complete status and `none`
(timeout) when the attempts are exhausted.  The `__init__` variant uses 20
attempts, the `ComfyClient` variant 60; both share this loop. -/
def poll_for_completion (responses : Nat → PollResponse) (prompt_id : String)
    (max_attempts : Nat) : Option HistoryEntry :=
  pollFrom responses prompt_id 0 max_attempts

/-- Python exception values raised by the embedded code. -/
inductive PyExn where
  | valueError (msg : String)
  | runtimeError (msg : String)
  | typeError (msg : String)
  | keyError (msg : String)
  | indexError (msg : String)
  | osError (msg : String)
  | attributeError (msg : String)
deriving DecidableEq

/-- The message carried by an exception (`str(e)`). -/
def pyExnMsg : PyExn → String
  | .valueError m => m
  | .runtimeError m => m
  | .typeError m => m
  | .keyError m => m
  | .indexError m => m
  | .osError m => m
  | .attributeError m => m

/-- The class name of an exception (`type(e).__name__`). -/
def pyExnTypeName : PyExn → String
  | .valueError _ => "ValueError"
  | .runtimeError _ => "RuntimeError"
  | .typeError _ => "TypeError"
  | .keyError _ => "KeyError"
  | .indexError _ => "IndexError"
  | .osError _ => "OSError"
  | .attributeError _ => "AttributeError"

/-- Whether `except (ValueError, RuntimeError)` catches the exception. -/
def isValueOrRuntime : PyExn → Bool
  | .valueError _ => true
  | .runtimeError _ => true
  | _ => false

/-- One directory entry: name, regular-file flag (`os.path.isfile`), and
creation time (`os.path.getctime`). -/
structure FileEntry where
  name : String
  isFile : Bool
  ctime : Int
deriving DecidableEq

/-- The filesystem as data: the existing directories with their listings in
enumeration order (`os.path.exists` holds exactly for the listed paths). -/
structure FS where
  dirs : List (String × List FileEntry)

/-- Case-insensitive extension test against the fixed image-extension set
(`f.lower().endswith((".png", ".jpg", ".jpeg", ".webp"))`). -/
def hasImageExt (name : String) : Bool :=
  let l := pyLower name
  pyEndsWith l ".png" || pyEndsWith l ".jpg" || pyEndsWith l ".jpeg" || pyEndsWith l ".webp"

/-- Left scan keeping the entry with strictly greater creation time: the
head of the stable descending sort by `ctime`, i.e. the first entry among
those of maximal creation time. -/
def pickBest (cur : FileEntry) : List FileEntry → FileEntry
  | [] => cur
  | f :: rest => pickBest (if f.ctime > cur.ctime then f else cur) rest

/-- The file returned by `image_files.sort(key=getctime, reverse=True);
image_files[0]`, or `none` for an empty candidate list. -/
def pickLatest : List FileEntry → Option FileEntry
  | [] => none
  | f :: rest => some (pickBest f rest)

/-- The shared tail of both artifact-location variants: check the search
directory exists, filter its regular files by image extension, fail when
none remain, otherwise return the full path of the most recently created
candidate. -/
def searchImages (fs : FS) (search_dir : String) : Except PyExn String :=
  match dictLookup fs.dirs search_dir with
  | none => .error (.valueError ("ComfyUI output directory not found: " ++ search_dir))
  | some listing =>
    let image_files := listing.filter (fun f => f.isFile && hasImageExt f.name)
    match pickLatest image_files with
    | none => .error (.valueError ("No image files found in " ++ search_dir))
    | some f => .ok (pyJoin search_dir f.name)

/-- The search directory computed by `ComfyClient.find_latest_image_in_output`
from the output node's configuration: convention B (`Image Save`) resolves
and time-expands the `output_path` input; convention A (any other type)
takes the directory part of the `filename_prefix` input.  Errors model the
`TypeError`/`AttributeError` Python raises on non-string configuration
values. -/
def computeSearchDir (render : String → String) (base_output_dir : String)
    (output_node_config : FlatNode) (workflow_template : FlatWF) :
    Except PyExn String :=
  if output_node_config.class_type = "Image Save" then
    let output_path_input := (dictLookup output_node_config.inputs "output_path").getD (.vstr "")
    match resolve_node_input output_path_input workflow_template with
    | none => .error (.typeError "unorderable or non-indexable output index")
    | some v =>
      match v with
      | .vstr op =>
        let output_path := evaluate_time_tokens render op
        .ok (if output_path ≠ "" then pyJoin base_output_dir output_path else base_output_dir)
      | _ => .error (.typeError "expected string or bytes-like object")
  else
    match (dictLookup output_node_config.inputs "filename_prefix").getD (.vstr "") with
    | .vstr filenamePrefix =>
      if pyIn "/" filenamePrefix then
        let parts := pySplitSlash filenamePrefix
        let dir_parts := parts.dropLast
        .ok (dir_parts.foldl pyJoin base_output_dir)
      else .ok base_output_dir
    | .vlist xs =>
      if xs.any (fun x => match x with | .vstr s => s = "/" | _ => false) then
        .error (.attributeError "list object has no attribute split")
      else .ok base_output_dir
    | _ => .error (.typeError "argument is not iterable")

/-- `ComfyClient.find_latest_image_in_output`: fail when the output
directory is unconfigured (`None` or empty), otherwise compute the search
directory for the node's convention and locate the newest image in it. -/
def find_latest_image_in_output (fs : FS) (comfy_output_dir : Option String)
    (render : String → String) (output_node_config : FlatNode)
    (workflow_template : FlatWF) : Except PyExn String :=
  if comfy_output_dir.getD "" = "" then
    .error (.valueError "COMFY_OUTPUT_DIR not configured")
  else
    match computeSearchDir render (comfy_output_dir.getD "") output_node_config
        workflow_template with
    | .error e => .error e
    | .ok search_dir => searchImages fs search_dir

/-- `find_latest_image_in_comfy_output` (the `__init__` variant): only the
`SaveImage` convention, against the hardcoded base output directory. -/
def find_latest_image_in_comfy_output (fs : FS) (output_node_config : FlatNode) :
    Except PyExn String :=
  let base_output_dir := "/Volumes/Sidecar/GenAI/ComfyUI/output"
  match (dictLookup output_node_config.inputs "filename_prefix").getD (.vstr "") with
  | .vstr filenamePrefix =>
    if pyIn "/" filenamePrefix then
      searchImages fs ((pySplitSlash filenamePrefix).dropLast.foldl pyJoin base_output_dir)
    else searchImages fs base_output_dir
  | .vlist xs =>
    if xs.any (fun x => match x with | .vstr s => s = "/" | _ => false) then
      .error (.attributeError "list object has no attribute split")
    else searchImages fs base_output_dir
  | _ => .error (.typeError "argument is not iterable")

/-- The parsed JSON of the submit endpoint's response together with its
HTTP status. -/
structure SubmitResp where
  status : Nat
  prompt_id : Option String
deriving DecidableEq

/-- `submit_workflow`: POST the payload (the transport is abstracted as the
supplied response data); a non-200 status yields `None`, otherwise the
response's `prompt_id` field (absent field yields `None`). -/
def submit_workflow (resp : SubmitResp) (workflow : FlatWF) : Option String :=
  if resp.status ≠ 200 then none else resp.prompt_id

/-- `template[nid]["inputs"][name] = v` on a flat workflow. -/
def setNodeInput (wf : FlatWF) (nid : String) (name : String) (v : JVal) : FlatWF :=
  (wf : List (String × FlatNode)).map
    (fun kv => if kv.1 = nid then
        (kv.1, { kv.2 with inputs := dictInsert kv.2.inputs name v })
      else kv)

/-- Python `k in template` for an optional key (`None in d` is `False` for
a dict with string keys). -/
def optMember (wf : FlatWF) (k : Option String) : Bool :=
  match k with
  | some s => (dictLookup (wf : List (String × FlatNode)) s).isSome
  | none => false

/-- The extraction `result["outputs"][output_node_id]["images"][0]` of the
orchestrator, with the `KeyError`/`IndexError` it can raise. -/
def extractOutputData (result : HistoryEntry) (output_node_id : Option String) :
    Except PyExn ImageDesc :=
  match output_node_id.bind (fun k => dictLookup result.outputs k) with
  | none => .error (.keyError (optStr output_node_id))
  | some nodeOut =>
    match nodeOut.images.head? with
    | some d => .ok d
    | none => .error (.indexError "list index out of range")

/-- `get_file_url`: the file view URL `f"{server}/view?{url_values}"`. -/
def get_file_url (server : String) (url_values : String) : String :=
  server ++ "/view?" ++ url_values

/-- The environment of one orchestration call: every effect the
orchestrator performs is supplied as data.  `readFile`, `mkdirsResult` and
`writeResult` model the filesystem calls of `download_and_save_image` (an
`error` value is a raised `OSError`); `timestamp` is
`datetime.now().strftime("%Y-%m-%d_%H%M%S")`; `normpath` abstracts
`os.path.normpath` and `urlquote` abstracts `urllib.parse.urlencode`. -/
structure GenEnv where
  submitResp : SubmitResp
  pollResponses : Nat → PollResponse
  fs : FS
  readFile : String → Except PyExn (List Nat)
  mkdirsResult : Except PyExn Unit
  writeResult : String → Except PyExn Unit
  timestamp : String
  normpath : String → String
  urlquote : ImageDesc → String

/-- The process-wide configuration the orchestrator reads: the loaded
API-format template and the discovered/overridden role node ids. -/
structure ServerConfig where
  prompt_template : FlatWF
  pos_prompt_node_id : Option String
  neg_prompt_node_id : Option String
  output_node_id : Option String
  output_mode : Option String
  working_dir : Option String
  override_host : String

/-- The value `generate_image` hands back to the caller on the success or
failure paths: a plain-text message, an embedded image, or a file URL. -/
inductive GenResult where
  | message (text : String)
  | image (data : List Nat)
  | fileUrl (url : String)
deriving DecidableEq

/-- `download_and_save_image`: look up the output node in the (mutated)
template, locate the newest image in the ComfyUI output directory, read its
bytes, create the destination directory, and write the bytes under a
timestamp-derived filename with the original extension. -/
def download_and_save_image (env : GenEnv) (template : FlatWF)
    (output_node_id : Option String) (save_path : String) :
    Except PyExn (List Nat × String) :=
  match output_node_id.bind
      (fun k => dictLookup (template : List (String × FlatNode)) k) with
  | none =>
      .error (.valueError
        ("SaveImage node " ++ optStr output_node_id ++ " not found in workflow"))
  | some output_node_config => do
    let source_path ← find_latest_image_in_comfy_output env.fs output_node_config
    let image_bytes ← env.readFile source_path
    let _ ← env.mkdirsResult
    let ext := splitextExt source_path
    let new_filename := env.timestamp ++ ext
    let full_path := pyJoin save_path new_filename
    let _ ← env.writeResult full_path
    pure (image_bytes, full_path)

/-- The save directory of one call: the caller-supplied path, else
`{working_dir}/img`, else `./img`, normalized. -/
def resolvedSavePath (env : GenEnv) (cfg : ServerConfig)
    (save_path : Option String) : String :=
  env.normpath
    (match save_path with
     | some p => p
     | none =>
       match cfg.working_dir with
       | some wd => pyJoin wd "img"
       | none => "./img")

/-- The template after the template-fill stage: the positive prompt is
written into the positive-prompt node's `text` input, and the negative
prompt into the negative-prompt node's `text` input when a negative prompt
was supplied, the role was discovered, and the node exists (otherwise the
negative prompt is skipped with a diagnostic notice). -/
def filledTemplate (cfg : ServerConfig) (positive_prompt negative_prompt : String) :
    FlatWF :=
  let t1 := setNodeInput cfg.prompt_template (cfg.pos_prompt_node_id.getD "")
    "text" (.vstr positive_prompt)
  if cfg.neg_prompt_node_id.isSome && negative_prompt ≠ "" then
    if optMember t1 cfg.neg_prompt_node_id then
      setNodeInput t1 (cfg.neg_prompt_node_id.getD "") "text" (.vstr negative_prompt)
    else t1
  else t1

/-- `generate_image`: the start → template-fill → submit → poll →
locate-output → fetch-and-persist orchestration.  The result type records a
raised exception as `Except.error`; every handled failure is an
`Except.ok` carrying a `GenResult.message`. -/
def generate_image (env : GenEnv) (cfg : ServerConfig)
    (positive_prompt negative_prompt : String) (save_path0 : Option String) :
    Except PyExn GenResult :=
  let save_path := resolvedSavePath env cfg save_path0
  if optMember cfg.prompt_template cfg.pos_prompt_node_id = false then
    .ok (.message ("Error: Positive prompt node ID '" ++ optStr cfg.pos_prompt_node_id
      ++ "' not found in workflow template"))
  else
    let template := filledTemplate cfg positive_prompt negative_prompt
    let prompt_id := submit_workflow env.submitResp template
    if prompt_id.getD "" = "" then
      .ok (.message "Error: Failed to submit workflow to ComfyUI")
    else
      match poll_for_completion env.pollResponses (prompt_id.getD "") 20 with
      | none => .ok (.message "Failed to generate image. Please check server logs.")
      | some result =>
        match extractOutputData result cfg.output_node_id with
        | .error e =>
            .ok (.message ("Error: Invalid output structure from ComfyUI: " ++ pyExnMsg e))
        | .ok output_data =>
          match download_and_save_image env template cfg.output_node_id save_path with
          | .error e =>
            if isValueOrRuntime e then
              .ok (.message ("Error downloading/saving image: " ++ pyExnMsg e))
            else
              .ok (.message ("Unexpected error during image save: " ++ pyExnTypeName e
                ++ ": " ++ pyExnMsg e))
          | .ok (image_bytes, _full_path) =>
            if (cfg.output_mode.map pyLower) = some "url" then
              .ok (.fileUrl (get_file_url cfg.override_host (env.urlquote output_data)))
            else .ok (.image image_bytes)

/-- The two-node document of the discovery tie-break scenario: node 1 is
titled "Positive Prompt", node 2 has an empty title, both have type
`CLIPTextEncode`. -/
def c1doc : WorkflowDocument := .graph
  { nodes := [
      { id := 1, title := some "Positive Prompt", ntype := "CLIPTextEncode",
        inputs := [], widgets_values := none },
      { id := 2, title := some "", ntype := "CLIPTextEncode",
        inputs := [], widgets_values := none }],
    links := [] }

/-- The `Text String` node of the reference-resolution scenario. -/
def c6node5 : FlatNode :=
  { class_type := "Text String",
    inputs := [("text", .vstr "a"), ("text_b", .vstr "b")] }

/-- The non-`Text String` node of the reference-resolution scenario. -/
def c6node7 : FlatNode := { class_type := "CLIPTextEncode", inputs := [] }

/-- The flat workflow of the reference-resolution scenario: node "5" is a
`Text String` with inputs `{text: "a", text_b: "b"}`; node "7" has another
type. -/
def c6wt : FlatWF :=
  [("5", c6node5), ("7", c6node7)]

/-- The one-node document of the widget-mapping scenario: inputs
`[{name: "text", widget: true}]` with widget values `["hello"]`. -/
def c8doc : WorkflowDocument := .graph
  { nodes := [
      { id := 1, title := none, ntype := "CLIPTextEncode",
        inputs := [{ name := "text", widget := true, link := none }],
        widgets_values := some [.vstr "hello"] }],
    links := [] }

/-- The node of the C8 witness: two widget-flagged inputs but only one
widget value. -/
def c8wnode : GNode :=
  { id := 3, title := none, ntype := "T",
    inputs := [{ name := "a", widget := true, link := none },
               { name := "b", widget := true, link := none }],
    widgets_values := some [.vstr "va"] }

/-- The document of the C8 witness. -/
def c8wdoc : GraphWF := { nodes := [c8wnode], links := [] }

/-- The document refuting C2 as stated: node 1 carries input `image` with
link id 9, the link list has a matching record `[9, 5, 0]`, but the node
has no `widgets_values` key. -/
def c2cexDoc : GraphWF :=
  { nodes := [
      { id := 1, title := none, ntype := "LoadImage",
        inputs := [{ name := "image", widget := false, link := some 9 }],
        widgets_values := none }],
    links := [{ lid := 9, source := 5, source_idx := 0 }] }

/-- The node of the C2 witness: one resolvable linked input and one whose
link id matches no link record, with a (vacuous) widget-values key. -/
def c2wnode : GNode :=
  { id := 1, title := none, ntype := "KSampler",
    inputs := [{ name := "positive", widget := false, link := some 4 },
               { name := "missing", widget := false, link := some 99 }],
    widgets_values := some [] }

/-- The document of the C2 witness. -/
def c2wdoc : GraphWF :=
  { nodes := [c2wnode], links := [{ lid := 4, source := 6, source_idx := 0 }] }

/-- The node of the C10 witness: a resolvable linked input but no
`widgets_values` key. -/
def c10node : GNode :=
  { id := 2, title := none, ntype := "VAEDecode",
    inputs := [{ name := "samples", widget := false, link := some 7 }],
    widgets_values := none }

/-- The document of the C10 witness. -/
def c10doc : GraphWF :=
  { nodes := [c10node], links := [{ lid := 7, source := 3, source_idx := 0 }] }

/-- The incomplete history entry of the C5 witness scenario. -/
def c5entryIncomplete : HistoryEntry := { completed := false, outputs := [] }

/-- The complete history entry of the C5 witness scenario. -/
def c5entryComplete : HistoryEntry :=
  { completed := true,
    outputs := [("9", { images :=
      [{ filename := "a.png", subfolder := "", ty := "output" }] })] }

/-- The response sequence of the C5 witness: absent, absent, incomplete,
complete. -/
def c5responses : Nat → PollResponse := fun i =>
  if i = 2 then { status := 200, history := [("42", c5entryIncomplete)] }
  else if i = 3 then { status := 200, history := [("42", c5entryComplete)] }
  else { status := 200, history := [] }

/-- The `SaveImage` output-node configuration of the C7 witness: its
filename prefix `sub/img` selects the `sub` subdirectory. -/
def c7cfg : FlatNode :=
  { class_type := "SaveImage", inputs := [("filename_prefix", .vstr "sub/img")] }

/-- The C7 witness listing: two image files (the newer with an uppercase
extension), a non-image file, and a directory entry named like an image. -/
def c7listing : List FileEntry :=
  [{ name := "a.png", isFile := true, ctime := 10 },
   { name := "b.JPG", isFile := true, ctime := 20 },
   { name := "notes.txt", isFile := true, ctime := 30 },
   { name := "c.png", isFile := false, ctime := 40 }]

/-- A filesystem where the search directory exists with `c7listing`. -/
def c7fs : FS := { dirs := [("/out/sub", c7listing)] }

/-- A filesystem where the search directory does not exist. -/
def c7fsMissing : FS := { dirs := [("/elsewhere", [])] }

/-- A filesystem where the search directory exists but holds no images. -/
def c7fsEmpty : FS :=
  { dirs := [("/out/sub", [{ name := "notes.txt", isFile := true, ctime := 5 }])] }

/-- The environment of the C3 witness: the submit endpoint answers with
status 500 and no job id. -/
def c3env : GenEnv :=
  { submitResp := { status := 500, prompt_id := none },
    pollResponses := fun _ => { status := 200, history := [] },
    fs := { dirs := [] },
    readFile := fun _ => .error (.osError "no such file"),
    mkdirsResult := .ok (),
    writeResult := fun _ => .ok (),
    timestamp := "2026-10-12_000000",
    normpath := fun s => s,
    urlquote := fun _ => "" }

/-- The configuration of the C3 witness: a one-node template whose node is
the discovered positive-prompt node. -/
def c3cfg : ServerConfig :=
  { prompt_template := [("1", { class_type := "CLIPTextEncode",
                                inputs := [("text", .vstr "")] })],
    pos_prompt_node_id := some "1",
    neg_prompt_node_id := none,
    output_node_id := some "9",
    output_mode := none,
    working_dir := none,
    override_host := "http://comfy" }

/-- A configuration whose mandatory positive-prompt role is missing. -/
def c3cfgNoPos : ServerConfig :=
  { prompt_template := [("1", { class_type := "CLIPTextEncode",
                                inputs := [("text", .vstr "")] })],
    pos_prompt_node_id := none,
    neg_prompt_node_id := none,
    output_node_id := some "9",
    output_mode := none,
    working_dir := none,
    override_host := "http://comfy" }

theorem dictLookup_dictInsert {α : Type} (m : List (String × α)) (k : String)
    (v : α) (k' : String) :
    dictLookup (dictInsert m k v) k' = if k' = k then some v else dictLookup m k' := by
  induction m with
  | nil =>
    by_cases h : k' = k
    · subst h; simp [dictInsert, dictLookup]
    · simp [dictInsert, dictLookup, h, Ne.symm h]
  | cons kv rest ih =>
    obtain ⟨a, b⟩ := kv
    by_cases hak : a = k
    · subst hak
      by_cases h : a = k'
      · subst h; simp [dictInsert, dictLookup]
      · simp [dictInsert, dictLookup, h, Ne.symm h]
    · by_cases h : a = k'
      · subst h
        simp [dictInsert, dictLookup, hak, Ne.symm hak]
      · simp [dictInsert, dictLookup, hak, h, ih]

theorem applyInputs_lookup_of_not_mem (links : List Link) (wv : List JVal)
    (inputs : List GInput) (widx : Nat) (acc : List (String × JVal))
    (name : String) (hnm : name ∉ inputs.map (fun i => i.name)) :
    dictLookup (applyInputs links wv inputs widx acc) name = dictLookup acc name := by
  induction inputs generalizing widx acc with
  | nil => rfl
  | cons inp rest ih =>
    simp only [List.map_cons, List.mem_cons, not_or] at hnm
    obtain ⟨hne, hrest⟩ := hnm
    cases hwv : inp.widget with
    | true =>
      cases hget : wv.get? widx with
      | some v =>
        simp only [applyInputs, hwv, hget, if_true]
        rw [ih _ _ hrest, dictLookup_dictInsert]
        simp [hne]
      | none =>
        simp only [applyInputs, hwv, hget, if_true]
        exact ih _ _ hrest
    | false =>
      cases hlink : inp.link with
      | some lid =>
        cases hfind : links.find? (fun l => l.lid == lid) with
        | some l =>
          simp only [applyInputs, hwv, hlink, hfind, Bool.false_eq_true, if_false]
          rw [ih _ _ hrest, dictLookup_dictInsert]
          simp [hne]
        | none =>
          simp only [applyInputs, hwv, hlink, hfind, Bool.false_eq_true, if_false]
          exact ih _ _ hrest
      | none =>
        simp only [applyInputs, hwv, hlink, Bool.false_eq_true, if_false]
        exact ih _ _ hrest

theorem applyInputs_link_lookup (links : List Link) (wv : List JVal)
    (inputs : List GInput) (widx : Nat) (acc : List (String × JVal))
    (inp : GInput) (lid : Int)
    (hmem : inp ∈ inputs) (hnd : (inputs.map (fun i => i.name)).Nodup)
    (hw : inp.widget = false) (hl : inp.link = some lid)
    (hacc : dictLookup acc inp.name = none) :
    dictLookup (applyInputs links wv inputs widx acc) inp.name =
      (links.find? (fun l => l.lid == lid)).map linkRef := by
  induction inputs generalizing widx acc with
  | nil => cases hmem
  | cons hd rest ih =>
    simp only [List.map_cons, List.nodup_cons] at hnd
    obtain ⟨hhd, hndrest⟩ := hnd
    rcases List.mem_cons.mp hmem with heq | hmemrest
    · subst heq
      have hnotmem : inp.name ∉ rest.map (fun i => i.name) := hhd
      cases hfind : links.find? (fun l => l.lid == lid) with
      | some l =>
        simp only [applyInputs, hw, hl, hfind, Bool.false_eq_true, if_false]
        rw [applyInputs_lookup_of_not_mem _ _ _ _ _ _ hnotmem, dictLookup_dictInsert]
        simp
      | none =>
        simp only [applyInputs, hw, hl, hfind, Bool.false_eq_true, if_false]
        rw [applyInputs_lookup_of_not_mem _ _ _ _ _ _ hnotmem, hacc]
        simp
    · have hname_ne : hd.name ≠ inp.name := by
        intro h
        exact hhd (h ▸ List.mem_map.mpr ⟨inp, hmemrest, rfl⟩)
      have hacc' : ∀ v : JVal, dictLookup (dictInsert acc hd.name v) inp.name = none := by
        intro v
        rw [dictLookup_dictInsert, if_neg (Ne.symm hname_ne)]
        exact hacc
      cases hwv : hd.widget with
      | true =>
        cases hget : wv.get? widx with
        | some v =>
          simp only [applyInputs, hwv, hget, if_true]
          exact ih _ _ hmemrest hndrest (hacc' v)
        | none =>
          simp only [applyInputs, hwv, hget, if_true]
          exact ih _ _ hmemrest hndrest hacc
      | false =>
        cases hlink : hd.link with
        | some lid' =>
          cases hfind : links.find? (fun l => l.lid == lid') with
          | some l =>
            simp only [applyInputs, hwv, hlink, hfind, Bool.false_eq_true, if_false]
            exact ih _ _ hmemrest hndrest (hacc' (linkRef l))
          | none =>
            simp only [applyInputs, hwv, hlink, hfind, Bool.false_eq_true, if_false]
            exact ih _ _ hmemrest hndrest hacc
        | none =>
          simp only [applyInputs, hwv, hlink, Bool.false_eq_true, if_false]
          exact ih _ _ hmemrest hndrest hacc

theorem applyInputs_widget_lookup (links : List Link) (wv : List JVal)
    (inputs : List GInput) (widx : Nat) (acc : List (String × JVal))
    (hnd : (inputs.map (fun i => i.name)).Nodup)
    (hacc : ∀ i ∈ inputs, dictLookup acc i.name = none)
    (j : Nat) (hj : j < (inputs.filter (fun i => i.widget)).length) :
    dictLookup (applyInputs links wv inputs widx acc)
        ((inputs.filter (fun i => i.widget)).get ⟨j, hj⟩).name =
      wv.get? (widx + j) := by
  induction inputs generalizing widx acc j with
  | nil => simp at hj
  | cons hd rest ih =>
    simp only [List.map_cons, List.nodup_cons] at hnd
    obtain ⟨hhd, hndrest⟩ := hnd
    have haccrest : ∀ v : JVal, ∀ i ∈ rest, i.name ≠ hd.name →
        dictLookup (dictInsert acc hd.name v) i.name = none := by
      intro v i hi hne
      rw [dictLookup_dictInsert, if_neg hne]
      exact hacc i (List.mem_cons_of_mem _ hi)
    have hne_rest : ∀ i ∈ rest, i.name ≠ hd.name := by
      intro i hi h
      exact hhd (h ▸ List.mem_map.mpr ⟨i, hi, rfl⟩)
    cases hwv : hd.widget with
    | true =>
      have hfilter : (hd :: rest).filter (fun i => i.widget) =
          hd :: rest.filter (fun i => i.widget) := by
        simp [List.filter, hwv]
      cases hget : wv.get? widx with
      | some v =>
        simp only [applyInputs, hwv, hget, if_true]
        rcases j with _ | j'
        · have hname : ((hd :: rest).filter (fun i => i.widget)).get ⟨0, hj⟩ = hd := by
            simp [hfilter]
          rw [hname]
          rw [applyInputs_lookup_of_not_mem _ _ _ _ _ _ hhd, dictLookup_dictInsert,
            if_pos rfl, Nat.add_zero, hget]
        · have hj' : j' < (rest.filter (fun i => i.widget)).length := by
            have := hj
            rw [hfilter] at this
            simpa using this
          have hname : ((hd :: rest).filter (fun i => i.widget)).get ⟨j' + 1, hj⟩ =
              (rest.filter (fun i => i.widget)).get ⟨j', hj'⟩ := by
            simp [hfilter]
          rw [hname]
          have := ih (widx + 1) (dictInsert acc hd.name v) hndrest
            (fun i hi => haccrest v i hi (hne_rest i hi)) j' hj'
          rw [this]
          congr 1
          omega
      | none =>
        simp only [applyInputs, hwv, hget, if_true]
        have hwvlen : wv.length ≤ widx := by
          have := List.get?_eq_none.mp hget
          omega
        rcases j with _ | j'
        · have hname : ((hd :: rest).filter (fun i => i.widget)).get ⟨0, hj⟩ = hd := by
            simp [hfilter]
          rw [hname]
          rw [applyInputs_lookup_of_not_mem _ _ _ _ _ _ hhd,
            hacc hd (List.mem_cons_self _ _)]
          have : wv.get? (widx + 0) = none := List.get?_eq_none.mpr (by omega)
          rw [this]
        · have hj' : j' < (rest.filter (fun i => i.widget)).length := by
            have := hj
            rw [hfilter] at this
            simpa using this
          have hname : ((hd :: rest).filter (fun i => i.widget)).get ⟨j' + 1, hj⟩ =
              (rest.filter (fun i => i.widget)).get ⟨j', hj'⟩ := by
            simp [hfilter]
          rw [hname]
          have := ih widx acc hndrest
            (fun i hi => hacc i (List.mem_cons_of_mem _ hi)) j' hj'
          rw [this]
          have h1 : wv.get? (widx + j') = none := List.get?_eq_none.mpr (by omega)
          have h2 : wv.get? (widx + (j' + 1)) = none := List.get?_eq_none.mpr (by omega)
          rw [h1, h2]
    | false =>
      have hfilter : (hd :: rest).filter (fun i => i.widget) =
          rest.filter (fun i => i.widget) := by
        simp [List.filter, hwv]
      have hj' : j < (rest.filter (fun i => i.widget)).length := by
        have := hj
        rw [hfilter] at this
        exact this
      have hname : ((hd :: rest).filter (fun i => i.widget)).get ⟨j, hj⟩ =
          (rest.filter (fun i => i.widget)).get ⟨j, hj'⟩ := by
        rw [List.get_of_eq hfilter]
      rw [hname]
      cases hlink : hd.link with
      | some lid =>
        cases hfind : links.find? (fun l => l.lid == lid) with
        | some l =>
          simp only [applyInputs, hwv, hlink, hfind, Bool.false_eq_true, if_false]
          exact ih widx _ hndrest
            (fun i hi => haccrest (linkRef l) i hi (hne_rest i hi)) j hj'
        | none =>
          simp only [applyInputs, hwv, hlink, hfind, Bool.false_eq_true, if_false]
          exact ih widx acc hndrest
            (fun i hi => hacc i (List.mem_cons_of_mem _ hi)) j hj'
      | none =>
        simp only [applyInputs, hwv, hlink, Bool.false_eq_true, if_false]
        exact ih widx acc hndrest
          (fun i hi => hacc i (List.mem_cons_of_mem _ hi)) j hj'

theorem api_foldl_lookup_of_not_mem (links : List Link) (nodes : List GNode)
    (acc : List (String × FlatNode)) (key : String)
    (hnm : key ∉ nodes.map (fun n => toString n.id)) :
    dictLookup (nodes.foldl
        (fun acc node => dictInsert acc (toString node.id) (nodeToFlat links node)) acc)
      key = dictLookup acc key := by
  induction nodes generalizing acc with
  | nil => rfl
  | cons n rest ih =>
    simp only [List.map_cons, List.mem_cons, not_or] at hnm
    obtain ⟨hne, hrest⟩ := hnm
    simp only [List.foldl_cons]
    rw [ih _ hrest, dictLookup_dictInsert, if_neg hne]

theorem api_format_lookup (links : List Link) (nodes : List GNode)
    (acc : List (String × FlatNode)) (node : GNode)
    (hmem : node ∈ nodes) (hnd : (nodes.map (fun n => toString n.id)).Nodup) :
    dictLookup (nodes.foldl
        (fun acc node => dictInsert acc (toString node.id) (nodeToFlat links node)) acc)
      (toString node.id) = some (nodeToFlat links node) := by
  induction nodes generalizing acc with
  | nil => cases hmem
  | cons n rest ih =>
    simp only [List.map_cons, List.nodup_cons] at hnd
    obtain ⟨hhd, hndrest⟩ := hnd
    rcases List.mem_cons.mp hmem with heq | hmemrest
    · subst heq
      simp only [List.foldl_cons]
      rw [api_foldl_lookup_of_not_mem links rest _ _ hhd, dictLookup_dictInsert,
        if_pos rfl]
    · simp only [List.foldl_cons]
      exact ih _ hmemrest hndrest

theorem pickBest_spec (rest : List FileEntry) (cur : FileEntry) :
    (pickBest cur rest = cur ∨ pickBest cur rest ∈ rest) ∧
      cur.ctime ≤ (pickBest cur rest).ctime ∧
      ∀ g ∈ rest, g.ctime ≤ (pickBest cur rest).ctime := by
  induction rest generalizing cur with
  | nil => simp [pickBest]
  | cons f rest ih =>
    simp only [pickBest]
    by_cases hgt : f.ctime > cur.ctime
    · rw [if_pos hgt]
      obtain ⟨hmem, hcur, hall⟩ := ih f
      refine ⟨?_, ?_, ?_⟩
      · rcases hmem with h | h
        · exact Or.inr (by rw [h]; exact List.mem_cons_self _ _)
        · exact Or.inr (List.mem_cons_of_mem _ h)
      · exact le_trans (le_of_lt hgt) hcur
      · intro g hg
        rcases List.mem_cons.mp hg with h | h
        · exact h ▸ hcur
        · exact hall g h
    · rw [if_neg hgt]
      obtain ⟨hmem, hcur, hall⟩ := ih cur
      refine ⟨?_, hcur, ?_⟩
      · rcases hmem with h | h
        · exact Or.inl h
        · exact Or.inr (List.mem_cons_of_mem _ h)
      · intro g hg
        rcases List.mem_cons.mp hg with h | h
        · subst h
          exact le_trans (not_lt.mp hgt) hcur
        · exact hall g h

theorem pickLatest_spec (files : List FileEntry) (f : FileEntry)
    (h : pickLatest files = some f) :
    f ∈ files ∧ ∀ g ∈ files, g.ctime ≤ f.ctime := by
  cases files with
  | nil => cases h
  | cons hd rest =>
    simp only [pickLatest, Option.some.injEq] at h
    obtain ⟨hmem, hcur, hall⟩ := pickBest_spec rest hd
    subst h
    constructor
    · rcases hmem with h | h
      · exact by rw [h]; exact List.mem_cons_self _ _
      · exact List.mem_cons_of_mem _ h
    · intro g hg
      rcases List.mem_cons.mp hg with h | h
      · exact h ▸ hcur
      · exact hall g h

theorem pollFrom_step (responses : Nat → PollResponse) (prompt_id : String)
    (i k : Nat) :
    pollFrom responses prompt_id i (k + 1) =
      match pollHit responses prompt_id i with
      | some e => some e
      | none => pollFrom responses prompt_id (i + 1) k := by
  simp only [pollFrom, pollHit]
  by_cases hs : (responses i).status = 200
  · rw [if_pos hs, if_pos hs]
    cases dictLookup (responses i).history prompt_id with
    | some entry =>
      by_cases hc : entry.completed
      · simp [hc]
      · simp [hc]
    | none => simp
  · rw [if_neg hs, if_neg hs]

theorem pollFrom_none (responses : Nat → PollResponse) (prompt_id : String)
    (k i : Nat) (h : ∀ d, d < k → pollHit responses prompt_id (i + d) = none) :
    pollFrom responses prompt_id i k = none := by
  induction k generalizing i with
  | zero => rfl
  | succ k ih =>
    rw [pollFrom_step]
    have h0 : pollHit responses prompt_id i = none := by
      have := h 0 (Nat.succ_pos k)
      simpa using this
    rw [h0]
    refine ih (i + 1) ?_
    intro d hd
    have := h (d + 1) (by omega)
    have harith : i + (d + 1) = i + 1 + d := by omega
    rwa [harith] at this

theorem pollFrom_first_hit (responses : Nat → PollResponse) (prompt_id : String)
    (k i d : Nat) (e : HistoryEntry) (hd : d < k)
    (hprev : ∀ d', d' < d → pollHit responses prompt_id (i + d') = none)
    (hhit : pollHit responses prompt_id (i + d) = some e) :
    pollFrom responses prompt_id i k = some e := by
  induction k generalizing i d with
  | zero => omega
  | succ k ih =>
    rw [pollFrom_step]
    rcases d with _ | d'
    · simp only [Nat.add_zero] at hhit
      rw [hhit]
    · have h0 : pollHit responses prompt_id i = none := by
        have := hprev 0 (Nat.succ_pos d')
        simpa using this
      rw [h0]
      refine ih (i + 1) d' (by omega) ?_ ?_
      · intro d'' hd''
        have := hprev (d'' + 1) (by omega)
        have harith : i + (d'' + 1) = i + 1 + d'' := by omega
        rwa [harith] at this
      · have harith : i + (d' + 1) = i + 1 + d' := by omega
        rwa [harith] at hhit

theorem evalTimeAux_unmatched (render : String → String) (c : Char)
    (rest : List Char) (h : matchTimeToken (c :: rest) = none) :
    evalTimeAux render (c :: rest) = c :: evalTimeAux render rest := by
  rw [evalTimeAux]
  split
  · rename_i p hp
    rw [h] at hp
    cases hp
  · rfl

theorem evalTimeAux_matched (render : String → String) (c : Char)
    (rest : List Char) (fmt : String) (tail : List Char)
    (h : matchTimeToken (c :: rest) = some (fmt, tail)) :
    evalTimeAux render (c :: rest) = (render fmt).data ++ evalTimeAux render tail := by
  rw [evalTimeAux]
  split
  · rename_i p hp
    rw [h] at hp
    cases hp
    rfl
  · rename_i hp
    rw [h] at hp
    cases hp

theorem evalTimeAux_of_no_token (render : String → String) (cs : List Char)
    (h : hasTimeTokenAux cs = false) : evalTimeAux render cs = cs := by
  induction cs with
  | nil => rw [evalTimeAux]
  | cons c rest ih =>
    simp only [hasTimeTokenAux, Bool.or_eq_false_iff] at h
    obtain ⟨hm, hrest⟩ := h
    rw [evalTimeAux_unmatched render c rest (Option.not_isSome_iff_eq_none.mp
      (by simp [hm]))]
    rw [ih hrest]

theorem evalTimeAux_nil (render : String → String) : evalTimeAux render [] = [] := by
  rw [evalTimeAux]

theorem string_append_mk (a b : String) : a ++ b = String.mk (a.data ++ b.data) := by
  cases a
  cases b
  rfl

/-- C4: the workflow normalizer is idempotent — normalizing twice equals
normalizing once for every document, and a document already in flat/API
form (no node-sequence key) is returned unchanged. -/
theorem c4_normalizer_idempotent :
    (∀ d : WorkflowDocument,
      workflow_to_api_format (workflow_to_api_format d) = workflow_to_api_format d) ∧
    (∀ w : FlatWF, workflow_to_api_format (.flat w) = .flat w) := by
  constructor
  · intro d
    cases d with
    | flat w => rfl
    | graph g => rfl
  · intro w
    rfl

/-- C1, counterexample: discovery with keywords `["nonexistent"]` and
required type `CLIPTextEncode` on the two-node document returns `"1"`, not
the `"2"` the claim states — the second pass returns the first node in
document order whose type matches, and node 1 (whose title failed the
keyword match) still has the required type. -/
theorem c1_counterexample :
    auto_discover_node_id (some c1doc) ["nonexistent"] (some "CLIPTextEncode") ≠
        some "2" ∧
      auto_discover_node_id (some c1doc) ["nonexistent"] (some "CLIPTextEncode") =
        some "1" := by
  constructor
  · decide
  · decide

/-- C1, amended: on the two-node document, discovery with keywords
`["positive"]` and type `CLIPTextEncode` returns `"1"` (first pass), and
discovery with keywords `["nonexistent"]` also returns `"1"` via the second
(type-only) pass, because the second pass scans nodes in document order and
returns the id of the first node whose type equals the required type —
which is node 1, not node 2. -/
theorem c1_discovery_tiebreak :
    auto_discover_node_id (some c1doc) ["positive"] (some "CLIPTextEncode") =
        some "1" ∧
      auto_discover_node_id (some c1doc) ["nonexistent"] (some "CLIPTextEncode") =
        some "1" ∧
      ∀ (wd : WorkflowDocument) (kws : List String) (ct : String), ct ≠ "" →
        (∀ n ∈ nodesOf wd, pass1Matches kws (some ct) n = false) →
        auto_discover_node_id (some wd) kws (some ct) =
          ((nodesOf wd).find? (fun node => node.ntype == ct)).map
            (fun node => toString node.id) := by
  refine ⟨by decide, by decide, ?_⟩
  intro wd kws ct hct hnone
  simp only [auto_discover_node_id]
  have hfind : (nodesOf wd).find? (pass1Matches kws (some ct)) = none :=
    List.find?_eq_none.mpr (fun x hx => by simp [hnone x hx])
  rw [hfind, if_neg hct]

/-- C1, witness: the second-pass characterization applied to the concrete
two-node document with a type no node has, where the first pass also finds
nothing, so discovery returns `none`. -/
theorem c1_witness :
    auto_discover_node_id (some c1doc) ["nonexistent"] (some "SaveImage") =
      ((nodesOf c1doc).find? (fun node => node.ntype == "SaveImage")).map
        (fun node => toString node.id) :=
  c1_discovery_tiebreak.2.2 c1doc ["nonexistent"] "SaveImage" (by decide) (by decide)

/-- C9: time-token expansion replaces the `[time(%Y)]` token of
`"/out/[time(%Y)]/x"` by the rendered current year (so the result contains
the rendered year and, since the rendering contains no `[`, no literal
`[time` substring remains), and every string the token scanner finds no
token in is returned content-equal. -/
theorem c9_time_tokens (render : String → String) :
    evaluate_time_tokens render "/out/[time(%Y)]/x" =
        "/out/" ++ render "%Y" ++ "/x" ∧
      ('[' ∉ (render "%Y").data →
        pyIn "[time" (evaluate_time_tokens render "/out/[time(%Y)]/x") = false) ∧
      ∀ s : String, hasTimeTokenAux s.data = false →
        evaluate_time_tokens render s = s := by
  have hdata : ("/out/[time(%Y)]/x" : String).data =
      '/' :: 'o' :: 'u' :: 't' :: '/' :: '[' :: 't' :: 'i' :: 'm' :: 'e' :: '(' ::
        '%' :: 'Y' :: ')' :: ']' :: '/' :: 'x' :: [] := rfl
  have hmain : evaluate_time_tokens render "/out/[time(%Y)]/x" =
      "/out/" ++ render "%Y" ++ "/x" := by
    simp only [evaluate_time_tokens, hdata]
    rw [evalTimeAux_unmatched _ _ _ (by decide), evalTimeAux_unmatched _ _ _ (by decide),
      evalTimeAux_unmatched _ _ _ (by decide), evalTimeAux_unmatched _ _ _ (by decide),
      evalTimeAux_unmatched _ _ _ (by decide),
      evalTimeAux_matched _ _ _ "%Y" ('/' :: 'x' :: []) (by decide),
      evalTimeAux_unmatched _ _ _ (by decide), evalTimeAux_unmatched _ _ _ (by decide),
      evalTimeAux_nil]
    rw [string_append_mk ("/out/" ++ render "%Y") "/x"]
    refine congrArg String.mk ?_
    rw [String.data_append]
    simp
  refine ⟨hmain, ?_, ?_⟩
  · intro hnb
    rw [hmain]
    simp only [pyIn, decide_eq_false_iff_not]
    intro hinf
    have hmem : '[' ∈ ("/out/" ++ render "%Y" ++ "/x").data :=
      hinf.subset (by decide)
    simp only [String.data_append, List.mem_append] at hmem
    rcases hmem with (h | h) | h
    · exact absurd h (by decide)
    · exact hnb h
    · exact absurd h (by decide)
  · intro s hs
    simp only [evaluate_time_tokens]
    rw [evalTimeAux_of_no_token render s.data hs]

/-- C9, witness: the expansion applied with a concrete rendering of the
current year, and the identity case on a token-free path. -/
theorem c9_witness :
    evaluate_time_tokens (fun _ => "2026") "/out/[time(%Y)]/x" = "/out/2026/x" ∧
      pyIn "[time" (evaluate_time_tokens (fun _ => "2026") "/out/[time(%Y)]/x") =
        false ∧
      evaluate_time_tokens (fun _ => "2026") "/no/tokens" = "/no/tokens" := by
  obtain ⟨h1, h2, h3⟩ := c9_time_tokens (fun _ => "2026")
  exact ⟨by rw [h1]; rfl, h2 (by decide), h3 "/no/tokens" (by decide)⟩

theorem resolve_ref_text_slot (wt : FlatWF) (sid : String) (node : FlatNode)
    (k : Nat) (hk : k < textSlots.length)
    (hlook : dictLookup (wt : List (String × FlatNode)) sid = some node)
    (hts : node.class_type = "Text String") :
    resolve_node_input (.vlist [.vstr sid, .vint (k : Int)]) wt =
      some ((dictLookup node.inputs (textSlots.get ⟨k, hk⟩)).getD (.vstr "")) := by
  simp only [resolve_node_input, pyStr, hlook, hts, if_pos, asPyInt]
  have hklt : ((k : Int) < (textSlots.length : Int)) := by exact_mod_cast hk
  rw [if_pos hklt]
  have hget : pyListGetStr textSlots (k : Int) = some (textSlots.get ⟨k, hk⟩) := by
    simp only [pyListGetStr, Int.toNat_ofNat]
    rw [if_pos (by positivity)]
    exact List.get?_eq_get hk
  rw [hget]

/-- C6: the node reference resolver returns the string form of a literal
non-null input, the empty string for null, and for a node reference against
an existing `Text String` source the string value of the slot named by the
fixed ordered list (`text`, `text_b`, `text_c`, `text_d`), with the empty
string whenever the source node is absent, has another type, or the slot
index is at least the length of the fixed list. -/
theorem c6_resolver (wt : FlatWF) :
    (∀ v : JVal, isNodeRef v = false → v ≠ .vnull →
      resolve_node_input v wt = some (.vstr (pyStr v))) ∧
    resolve_node_input .vnull wt = some (.vstr "") ∧
    (∀ (sid : String) (node : FlatNode),
      dictLookup (wt : List (String × FlatNode)) sid = some node →
      node.class_type = "Text String" →
      (∀ (k : Nat) (hk : k < textSlots.length) (s : String),
        dictLookup node.inputs (textSlots.get ⟨k, hk⟩) = some (.vstr s) →
        resolve_node_input (.vlist [.vstr sid, .vint (k : Int)]) wt =
          some (.vstr s)) ∧
      ∀ k : Nat, textSlots.length ≤ k →
        resolve_node_input (.vlist [.vstr sid, .vint (k : Int)]) wt =
          some (.vstr "")) ∧
    (∀ (sid : String) (node : FlatNode) (v1 : JVal),
      dictLookup (wt : List (String × FlatNode)) sid = some node →
      node.class_type ≠ "Text String" →
      resolve_node_input (.vlist [.vstr sid, v1]) wt = some (.vstr "")) ∧
    (∀ (sid : String) (v1 : JVal),
      dictLookup (wt : List (String × FlatNode)) sid = none →
      resolve_node_input (.vlist [.vstr sid, v1]) wt = some (.vstr "")) := by
  refine ⟨?_, rfl, ?_, ?_, ?_⟩
  · intro v href hnull
    cases v with
    | vnull => exact absurd rfl hnull
    | vbool b => rfl
    | vint n => rfl
    | vstr s => rfl
    | vlist xs =>
      rcases xs with _ | ⟨a, _ | ⟨b, _ | ⟨c, rest⟩⟩⟩
      · rfl
      · rfl
      · simp [isNodeRef] at href
      · rfl
  · intro sid node hlook hts
    constructor
    · intro k hk s hslot
      rw [resolve_ref_text_slot wt sid node k hk hlook hts, hslot]
      rfl
    · intro k hge
      simp only [resolve_node_input, pyStr, hlook, hts, if_pos, asPyInt]
      rw [if_neg (by exact_mod_cast Nat.not_lt.mpr hge)]
  · intro sid node v1 hlook hnts
    simp only [resolve_node_input, pyStr, hlook]
    rw [if_neg hnts]
  · intro sid v1 hlook
    simp only [resolve_node_input, pyStr, hlook]

/-- C6, witness: resolving `["5", 1]` yields `"b"`, resolving against the
non-`Text String` node "7" yields `""`, a literal resolves to its string
form and null to the empty string. -/
theorem c6_witness :
    resolve_node_input (.vlist [.vstr "5", .vint (1 : Nat)]) c6wt =
        some (.vstr "b") ∧
      resolve_node_input (.vlist [.vstr "7", .vint 0]) c6wt = some (.vstr "") ∧
      resolve_node_input (.vstr "direct") c6wt = some (.vstr "direct") ∧
      resolve_node_input .vnull c6wt = some (.vstr "") := by
  obtain ⟨hlit, hnull, hts, hnon, _⟩ := c6_resolver c6wt
  refine ⟨?_, ?_, ?_, hnull⟩
  · exact (hts "5" c6node5 rfl rfl).1 1 (by decide) "b" rfl
  · exact hnon "7" c6node7 (.vint 0) rfl (by decide)
  · exact hlit (.vstr "direct") rfl (by intro h; exact JVal.noConfusion h)

/-- C8: normalization assigns widget values to widget-flagged inputs in
positional order with a per-node cursor — the j-th widget-flagged input of
a node with a widget-values key receives the j-th widget value under its
declared name, and an input beyond the widget-value count is left absent
(`wv.get? j` is `none` there) with no error; concretely, the example node
normalizes to inputs `{text: "hello"}`. -/
theorem c8_widget_mapping :
    workflow_to_api_format c8doc =
        .flat [("1", { class_type := "CLIPTextEncode",
                       inputs := [("text", .vstr "hello")] })] ∧
      ∀ (g : GraphWF) (node : GNode) (wv : List JVal) (flatWf : FlatWF)
        (j : Nat) (hj : j < (node.inputs.filter (fun i => i.widget)).length),
        workflow_to_api_format (.graph g) = .flat flatWf →
        (g.nodes.map (fun n => toString n.id)).Nodup →
        node ∈ g.nodes →
        node.widgets_values = some wv →
        (node.inputs.map (fun i => i.name)).Nodup →
        dictLookup (flatWf : List (String × FlatNode)) (toString node.id) =
            some (nodeToFlat g.links node) ∧
          dictLookup (nodeToFlat g.links node).inputs
              ((node.inputs.filter (fun i => i.widget)).get ⟨j, hj⟩).name =
            wv.get? j := by
  refine ⟨rfl, ?_⟩
  intro g node wv flatWf j hj hflat hids hmem hwv hnames
  simp only [workflow_to_api_format, WorkflowDocument.flat.injEq] at hflat
  subst hflat
  refine ⟨api_format_lookup g.links g.nodes [] node hmem hids, ?_⟩
  simp only [nodeToFlat, hwv]
  have := applyInputs_widget_lookup g.links wv node.inputs 0 [] hnames
    (fun i _ => rfl) j hj
  rwa [Nat.zero_add] at this

/-- C8, witness: with widget values `["va"]` over widget inputs `a`, `b`,
input `a` receives `"va"` and input `b` stays absent. -/
theorem c8_witness :
    dictLookup (nodeToFlat c8wdoc.links c8wnode).inputs "a" =
        some (.vstr "va") ∧
      dictLookup (nodeToFlat c8wdoc.links c8wnode).inputs "b" = none := by
  constructor
  · exact (c8_widget_mapping.2 c8wdoc c8wnode [.vstr "va"]
      [("3", nodeToFlat c8wdoc.links c8wnode)] 0 (by decide) rfl (by decide)
      (List.mem_cons_self _ _) rfl (by decide)).2
  · exact (c8_widget_mapping.2 c8wdoc c8wnode [.vstr "va"]
      [("3", nodeToFlat c8wdoc.links c8wnode)] 1 (by decide) rfl (by decide)
      (List.mem_cons_self _ _) rfl (by decide)).2

/-- C2, counterexample: the claim says the linked input `image` must be set
to the node reference `["5", 0]` because link 9 matches, yet normalization
produces an empty inputs mapping for node 1 — the input loop only runs for
nodes with a `widgets_values` key, which this node lacks. -/
theorem c2_counterexample :
    workflow_to_api_format (.graph c2cexDoc) =
        .flat [("1", { class_type := "LoadImage", inputs := [] })] ∧
      c2cexDoc.links.find? (fun l => l.lid == 9) =
        some { lid := 9, source := 5, source_idx := 0 } :=
  ⟨rfl, rfl⟩

/-- C2, amended: for every graph-form document, normalization maps a node
that has a widget-values key and a non-widget input carrying a link-id to a
flat record in which that input equals the node reference (string form of
the link's source node id, the link's output index) of the first matching
link record, and is absent from the inputs mapping when no link record
matches (stated for well-formed documents with distinct node ids and
distinct input names). -/
theorem c2_link_mapping :
    ∀ (g : GraphWF) (node : GNode) (wv : List JVal) (flatWf : FlatWF)
      (inp : GInput) (lid : Int),
      workflow_to_api_format (.graph g) = .flat flatWf →
      (g.nodes.map (fun n => toString n.id)).Nodup →
      node ∈ g.nodes →
      node.widgets_values = some wv →
      (node.inputs.map (fun i => i.name)).Nodup →
      inp ∈ node.inputs → inp.widget = false → inp.link = some lid →
      dictLookup (flatWf : List (String × FlatNode)) (toString node.id) =
          some (nodeToFlat g.links node) ∧
        dictLookup (nodeToFlat g.links node).inputs inp.name =
          (g.links.find? (fun l => l.lid == lid)).map linkRef := by
  intro g node wv flatWf inp lid hflat hids hmem hwv hnames hinp hwidget hlink
  simp only [workflow_to_api_format, WorkflowDocument.flat.injEq] at hflat
  subst hflat
  refine ⟨api_format_lookup g.links g.nodes [] node hmem hids, ?_⟩
  simp only [nodeToFlat, hwv]
  exact applyInputs_link_lookup g.links wv node.inputs 0 [] inp lid hinp hnames
    hwidget hlink rfl

/-- C2, witness: input `positive` resolves to the reference `["6", 0]` of
the matching link record, and input `missing` stays absent because no link
record has id 99. -/
theorem c2_witness :
    dictLookup (nodeToFlat c2wdoc.links c2wnode).inputs "positive" =
        some (.vlist [.vstr "6", .vint 0]) ∧
      dictLookup (nodeToFlat c2wdoc.links c2wnode).inputs "missing" = none := by
  constructor
  · exact (c2_link_mapping c2wdoc c2wnode []
      [("1", nodeToFlat c2wdoc.links c2wnode)]
      { name := "positive", widget := false, link := some 4 } 4 rfl (by decide)
      (List.mem_cons_self _ _) rfl (by decide) (List.mem_cons_self _ _) rfl rfl).2
  · exact (c2_link_mapping c2wdoc c2wnode []
      [("1", nodeToFlat c2wdoc.links c2wnode)]
      { name := "missing", widget := false, link := some 99 } 99 rfl (by decide)
      (List.mem_cons_self _ _) rfl (by decide)
      (List.mem_cons_of_mem _ (List.mem_cons_self _ _)) rfl rfl).2

/-- C10: a graph-form node without a `widgets_values` key normalizes to a
flat record with an empty inputs mapping, even when its inputs carry
resolvable link-ids — link resolution only runs for nodes with a
`widgets_values` key. -/
theorem c10_no_widgets_no_inputs :
    ∀ (g : GraphWF) (node : GNode) (flatWf : FlatWF),
      workflow_to_api_format (.graph g) = .flat flatWf →
      (g.nodes.map (fun n => toString n.id)).Nodup →
      node ∈ g.nodes → node.widgets_values = none →
      dictLookup (flatWf : List (String × FlatNode)) (toString node.id) =
        some { class_type := node.ntype, inputs := [] } := by
  intro g node flatWf hflat hids hmem hwv
  simp only [workflow_to_api_format, WorkflowDocument.flat.injEq] at hflat
  subst hflat
  exact (api_format_lookup g.links g.nodes [] node hmem hids).trans
    (by simp [nodeToFlat, hwv])

/-- C10, witness: the node of `c10doc` has a matching link record for its
input, yet its flat record's inputs mapping is empty. -/
theorem c10_witness :
    dictLookup ([("2", nodeToFlat c10doc.links c10node)] :
        List (String × FlatNode)) "2" =
      some { class_type := "VAEDecode", inputs := [] } := by
  exact c10_no_widgets_no_inputs c10doc c10node
    [("2", nodeToFlat c10doc.links c10node)] rfl (by decide)
    (List.mem_cons_self _ _) rfl

/-- C5: the poll loop returns the full history entry of the first attempt
whose response carries the job id with a true completion flag (no earlier
attempt having the id present and complete), and returns `none` — the
timeout outcome, distinct from any completed payload — when no attempt
within the configured maximum observes a present-and-complete status. -/
theorem c5_poll (responses : Nat → PollResponse) (prompt_id : String)
    (max_attempts : Nat) (h200 : ∀ i, (responses i).status = 200) :
    (∀ (j : Nat) (e : HistoryEntry), j < max_attempts →
      (∀ i, i < j → ∀ e', dictLookup (responses i).history prompt_id = some e' →
        e'.completed = false) →
      dictLookup (responses j).history prompt_id = some e → e.completed = true →
      poll_for_completion responses prompt_id max_attempts = some e) ∧
    ((∀ i, i < max_attempts →
        ∀ e', dictLookup (responses i).history prompt_id = some e' →
          e'.completed = false) →
      poll_for_completion responses prompt_id max_attempts = none) := by
  have hhit_none : ∀ i,
      (∀ e', dictLookup (responses i).history prompt_id = some e' →
        e'.completed = false) →
      pollHit responses prompt_id i = none := by
    intro i hi
    simp only [pollHit]
    rw [if_pos (h200 i)]
    cases hl : dictLookup (responses i).history prompt_id with
    | none => rfl
    | some e' => simp [hi e' hl]
  constructor
  · intro j e hj hprev hlook hcompl
    refine pollFrom_first_hit responses prompt_id max_attempts 0 j e hj ?_ ?_
    · intro d' hd'
      rw [Nat.zero_add]
      exact hhit_none d' (hprev d' hd')
    · rw [Nat.zero_add]
      simp only [pollHit]
      rw [if_pos (h200 j), hlook]
      simp [hcompl]
  · intro hall
    refine pollFrom_none responses prompt_id max_attempts 0 ?_
    intro d hd
    rw [Nat.zero_add]
    exact hhit_none d (hall d hd)

/-- C5, witness: over the sequence absent, absent, incomplete, complete,
polling with 4 attempts returns the complete payload on the 4th attempt,
and polling the same sequence with only 3 attempts times out. -/
theorem c5_witness :
    poll_for_completion c5responses "42" 4 = some c5entryComplete ∧
      poll_for_completion c5responses "42" 3 = none := by
  have h200 : ∀ i, (c5responses i).status = 200 := by
    intro i
    by_cases h2 : i = 2 <;> by_cases h3 : i = 3 <;> simp [c5responses, h2, h3]
  have hnever : ∀ i, i < 3 →
      ∀ e', dictLookup (c5responses i).history "42" = some e' →
        e'.completed = false := by
    intro i hi e' hl
    interval_cases i
    · exact absurd hl (by simp [c5responses, dictLookup])
    · exact absurd hl (by simp [c5responses, dictLookup])
    · have : e' = c5entryIncomplete := by
        simp [c5responses, dictLookup] at hl
        exact hl.symm
      rw [this]
      rfl
  constructor
  · exact (c5_poll c5responses "42" 4 h200).1 3 c5entryComplete (by omega) hnever
      (by simp [c5responses, dictLookup]) rfl
  · exact (c5_poll c5responses "42" 3 h200).2 hnever

theorem dir_msg_ne_images_msg (s : String) :
    ("ComfyUI output directory not found: " ++ s) ≠
      ("No image files found in " ++ s) := by
  intro h
  have hd := congrArg String.data h
  rw [String.data_append, String.data_append] at hd
  have h1 : ("ComfyUI output directory not found: " : String).data =
      'C' :: ("omfyUI output directory not found: " : String).data := rfl
  have h2 : ("No image files found in " : String).data =
      'N' :: ("o image files found in " : String).data := rfl
  rw [h1, h2] at hd
  simp only [List.cons_append, List.cons.injEq] at hd
  exact absurd hd.1 (by decide)

/-- C7: with the output directory configured and the search directory
computed from the node's configuration, artifact location fails with the
"directory not found" condition exactly when the search directory does not
exist, fails with the "no images found" condition exactly when it exists
but contains no regular file with an image extension (case-insensitively
one of .png/.jpg/.jpeg/.webp), and otherwise returns a candidate file of
maximal creation time. -/
theorem c7_artifact (fs : FS) (comfy_output_dir : Option String)
    (render : String → String) (cfg : FlatNode) (wt : FlatWF) (b sd : String)
    (hodir : comfy_output_dir = some b) (hb : b ≠ "")
    (hcsd : computeSearchDir render b cfg wt = .ok sd) :
    ((find_latest_image_in_output fs comfy_output_dir render cfg wt =
        .error (.valueError ("ComfyUI output directory not found: " ++ sd))) ↔
      dictLookup fs.dirs sd = none) ∧
    ((find_latest_image_in_output fs comfy_output_dir render cfg wt =
        .error (.valueError ("No image files found in " ++ sd))) ↔
      ∃ listing, dictLookup fs.dirs sd = some listing ∧
        listing.filter (fun f => f.isFile && hasImageExt f.name) = []) ∧
    (∀ listing, dictLookup fs.dirs sd = some listing →
      listing.filter (fun f => f.isFile && hasImageExt f.name) ≠ [] →
      ∃ f, f ∈ listing.filter (fun f => f.isFile && hasImageExt f.name) ∧
        (∀ g ∈ listing.filter (fun f => f.isFile && hasImageExt f.name),
          g.ctime ≤ f.ctime) ∧
        find_latest_image_in_output fs comfy_output_dir render cfg wt =
          .ok (pyJoin sd f.name)) := by
  subst hodir
  have hsimp : find_latest_image_in_output fs (some b) render cfg wt =
      searchImages fs sd := by
    simp only [find_latest_image_in_output, Option.getD]
    rw [if_neg hb, hcsd]
  rw [hsimp]
  cases hl : dictLookup fs.dirs sd with
  | none =>
    have hres : searchImages fs sd =
        .error (.valueError ("ComfyUI output directory not found: " ++ sd)) := by
      simp only [searchImages, hl]
    rw [hres]
    refine ⟨by simp, ?_, ?_⟩
    · constructor
      · intro h
        simp only [Except.error.injEq, PyExn.valueError.injEq] at h
        exact absurd h (dir_msg_ne_images_msg sd)
      · rintro ⟨listing, hsome, -⟩
        cases hsome
    · intro listing hsome
      cases hsome
  | some listing =>
    cases him : listing.filter (fun f => f.isFile && hasImageExt f.name) with
    | nil =>
      have hres : searchImages fs sd =
          .error (.valueError ("No image files found in " ++ sd)) := by
        simp only [searchImages, hl, him, pickLatest]
      rw [hres]
      refine ⟨?_, ?_, ?_⟩
      · constructor
        · intro h
          simp only [Except.error.injEq, PyExn.valueError.injEq] at h
          exact absurd h.symm (dir_msg_ne_images_msg sd)
        · intro h
          cases h
      · exact ⟨fun _ => ⟨listing, rfl, him⟩, fun _ => rfl⟩
      · intro listing' hsome' hne
        cases hsome'
        exact absurd him hne
    | cons f0 rest =>
      have hpick : pickLatest
          (listing.filter (fun f => f.isFile && hasImageExt f.name)) =
          some (pickBest f0 rest) := by
        rw [him]
        rfl
      have hres : searchImages fs sd = .ok (pyJoin sd (pickBest f0 rest).name) := by
        simp only [searchImages, hl, hpick]
      rw [hres]
      refine ⟨?_, ?_, ?_⟩
      · constructor
        · intro h
          cases h
        · intro h
          cases h
      · constructor
        · intro h
          cases h
        · rintro ⟨listing', hsome', hempty⟩
          cases hsome'
          rw [him] at hempty
          cases hempty
      · intro listing' hsome' hne
        cases hsome'
        obtain ⟨hmem, hmax⟩ := pickLatest_spec
          (listing.filter (fun f => f.isFile && hasImageExt f.name))
          (pickBest f0 rest) hpick
        exact ⟨pickBest f0 rest, hmem, hmax, rfl⟩

/-- C7, witness: against the `sub/img` prefix the computed search directory
is `/out/sub`; a missing directory yields the "directory not found" error,
an image-free directory the "no images found" error, and the populated
directory the most recently created image `b.JPG`. -/
theorem c7_witness :
    find_latest_image_in_output c7fsMissing (some "/out") (fun f => f) c7cfg [] =
        .error (.valueError ("ComfyUI output directory not found: " ++ "/out/sub")) ∧
      find_latest_image_in_output c7fsEmpty (some "/out") (fun f => f) c7cfg [] =
        .error (.valueError ("No image files found in " ++ "/out/sub")) ∧
      find_latest_image_in_output c7fs (some "/out") (fun f => f) c7cfg [] =
        .ok "/out/sub/b.JPG" := by
  refine ⟨?_, ?_, ?_⟩
  · exact (c7_artifact c7fsMissing (some "/out") (fun f => f) c7cfg [] "/out"
      "/out/sub" rfl (by decide) rfl).1.mpr rfl
  · exact (c7_artifact c7fsEmpty (some "/out") (fun f => f) c7cfg [] "/out"
      "/out/sub" rfl (by decide) rfl).2.1.mpr
      ⟨[{ name := "notes.txt", isFile := true, ctime := 5 }], rfl, rfl⟩
  · obtain ⟨f, hmem, hmax, hres⟩ := (c7_artifact c7fs (some "/out") (fun f => f)
      c7cfg [] "/out" "/out/sub" rfl (by decide) rfl).2.2 c7listing rfl (by decide)
    exact rfl

/-- C3: the orchestrator never lets an exception escape — for every
environment and configuration it returns a value (`Except.ok`), and each
taxonomy failure short-circuits to a terminal plain-text message: a missing
mandatory positive-prompt role, a submission failure (non-200 status or a
missing/empty job id), a poll timeout, a malformed output structure, and
an artifact-location or persistence failure inside the fetch-and-persist
stage (the latter caught by kind, every other exception by the catch-all
arm).  HTTP transport and JSON parsing are modelled as data-producing; the
spec classifies their faults as outside the taxonomy. -/
theorem c3_orchestrator (env : GenEnv) (cfg : ServerConfig)
    (positive_prompt negative_prompt : String) (save_path0 : Option String) :
    (∃ r, generate_image env cfg positive_prompt negative_prompt save_path0 =
      .ok r) ∧
    (optMember cfg.prompt_template cfg.pos_prompt_node_id = false →
      generate_image env cfg positive_prompt negative_prompt save_path0 =
        .ok (.message ("Error: Positive prompt node ID '" ++
          optStr cfg.pos_prompt_node_id ++ "' not found in workflow template"))) ∧
    (optMember cfg.prompt_template cfg.pos_prompt_node_id = true →
      (submit_workflow env.submitResp
          (filledTemplate cfg positive_prompt negative_prompt)).getD "" = "" →
      generate_image env cfg positive_prompt negative_prompt save_path0 =
        .ok (.message "Error: Failed to submit workflow to ComfyUI")) ∧
    (∀ pid, optMember cfg.prompt_template cfg.pos_prompt_node_id = true →
      submit_workflow env.submitResp
        (filledTemplate cfg positive_prompt negative_prompt) = some pid →
      pid ≠ "" →
      poll_for_completion env.pollResponses pid 20 = none →
      generate_image env cfg positive_prompt negative_prompt save_path0 =
        .ok (.message "Failed to generate image. Please check server logs.")) ∧
    (∀ pid result e,
      optMember cfg.prompt_template cfg.pos_prompt_node_id = true →
      submit_workflow env.submitResp
        (filledTemplate cfg positive_prompt negative_prompt) = some pid →
      pid ≠ "" →
      poll_for_completion env.pollResponses pid 20 = some result →
      extractOutputData result cfg.output_node_id = .error e →
      generate_image env cfg positive_prompt negative_prompt save_path0 =
        .ok (.message ("Error: Invalid output structure from ComfyUI: " ++
          pyExnMsg e))) ∧
    (∀ pid result output_data e,
      optMember cfg.prompt_template cfg.pos_prompt_node_id = true →
      submit_workflow env.submitResp
        (filledTemplate cfg positive_prompt negative_prompt) = some pid →
      pid ≠ "" →
      poll_for_completion env.pollResponses pid 20 = some result →
      extractOutputData result cfg.output_node_id = .ok output_data →
      download_and_save_image env
        (filledTemplate cfg positive_prompt negative_prompt) cfg.output_node_id
        (resolvedSavePath env cfg save_path0) = .error e →
      generate_image env cfg positive_prompt negative_prompt save_path0 =
        .ok (.message (if isValueOrRuntime e then
          "Error downloading/saving image: " ++ pyExnMsg e
        else
          "Unexpected error during image save: " ++ pyExnTypeName e ++ ": " ++
            pyExnMsg e))) := by
  refine ⟨?_, ?_, ?_, ?_, ?_, ?_⟩
  · simp only [generate_image]
    split
    · exact ⟨_, rfl⟩
    · split
      · exact ⟨_, rfl⟩
      · split
        · exact ⟨_, rfl⟩
        · split
          · exact ⟨_, rfl⟩
          · split
            · split
              · exact ⟨_, rfl⟩
              · exact ⟨_, rfl⟩
            · split
              · exact ⟨_, rfl⟩
              · exact ⟨_, rfl⟩
  · intro h
    simp only [generate_image]
    rw [if_pos h]
  · intro hmem hsub
    simp only [generate_image]
    rw [if_neg (by simp [hmem]), if_pos hsub]
  · intro pid hmem hsub hpid hpoll
    simp only [generate_image]
    rw [if_neg (by simp [hmem]),
      if_neg (by rw [hsub]; simpa using hpid)]
    rw [hsub]
    simp only [Option.getD_some, hpoll]
  · intro pid result e hmem hsub hpid hpoll hext
    simp only [generate_image]
    rw [if_neg (by simp [hmem]),
      if_neg (by rw [hsub]; simpa using hpid)]
    rw [hsub]
    simp only [Option.getD_some, hpoll, hext]
  · intro pid result output_data e hmem hsub hpid hpoll hext hdl
    simp only [generate_image]
    rw [if_neg (by simp [hmem]),
      if_neg (by rw [hsub]; simpa using hpid)]
    rw [hsub]
    simp only [Option.getD_some, hpoll, hext, hdl]
    by_cases hc : isValueOrRuntime e = true
    · simp [hc]
    · simp [hc]

/-- C3, witness: a failed submission and a missing mandatory role each
yield the corresponding terminal message. -/
theorem c3_witness :
    generate_image c3env c3cfg "a prompt" "" none =
        .ok (.message "Error: Failed to submit workflow to ComfyUI") ∧
      generate_image c3env c3cfgNoPos "a prompt" "" none =
        .ok (.message
          "Error: Positive prompt node ID 'None' not found in workflow template") := by
  constructor
  · exact (c3_orchestrator c3env c3cfg "a prompt" "" none).2.2.1 (by decide)
      (by decide)
  · exact (c3_orchestrator c3env c3cfgNoPos "a prompt" "" none).2.1 (by decide)
